import Mathlib

/-!
Verification development for the mesh-to-SDF converter
(`generate_sdf_from_mesh.py`): a shallow embedding of the script's
data flow — Python float formatting, POSIX path manipulation, the XML
descriptor tree, and the converter's functions — together with theorems
about the generated descriptor.

External library behavior (trimesh loading, VHACD convex decomposition,
mass/inertia computation, open3d decimation) is modelled by oracle
function parameters; the repository's own logic (parameter marshalling,
path construction, XML assembly, error tolerance) is translated
faithfully.  Machine floats are modelled as exact rationals.
-/

namespace ConvexDecompToSdf

/-! ## Decimal formatting: model of Python format spec `.4E` -/

/-- Decimal digit characters of a natural number (model of CPython's
integer-to-decimal conversion used by string formatting). -/
def natDigits (n : Nat) : List Char :=
  Nat.toDigits 10 n

/-- Left-pad a character list with zeros to a minimum width
(model of a zero-padded minimum-width printf field such as `%03d`). -/
def padZeros (w : Nat) (s : List Char) : List Char :=
  List.replicate (w - s.length) '0' ++ s

/-- The character for the low decimal digit of a natural number. -/
def digitOfNat (n : Nat) : Char :=
  Char.ofNat (48 + n % 10)

/-- Mantissa characters `d.dddd` of the five-digit integer `n`
(precision-4 scientific mantissa, one leading digit then four
fractional digits, as produced by the format spec `.4E`). -/
def mantissaChars (n : Nat) : List Char :=
  [digitOfNat (n / 10000), '.', digitOfNat (n / 1000), digitOfNat (n / 100),
   digitOfNat (n / 10), digitOfNat n]

/-- Exponent field `E±dd` of scientific notation (sign always printed,
exponent zero-padded to at least two digits, as CPython does). -/
def expChars (e : Int) : List Char :=
  'E' :: (if e < 0 then '-' else '+') :: padZeros 2 (natDigits e.natAbs)

/-- Number of decimal digits of a natural number (one digit for 0). -/
def digCount (n : Nat) : Nat :=
  (Nat.toDigits 10 n).length

/-- Whether `q < 10 ^ e`, decided in integer arithmetic
(for a positive denominator this is exact). -/
def ratLtPow10 (q : ℚ) (e : Int) : Bool :=
  if 0 ≤ e then q.num < (q.den : Int) * 10 ^ e.toNat
  else q.num * 10 ^ (-e).toNat < (q.den : Int)

/-- Decimal exponent of a positive rational: the unique `e` with
`10 ^ e ≤ q < 10 ^ (e + 1)`, computed from the digit counts of
numerator and denominator with one comparison to correct. -/
def decExp (q : ℚ) : Int :=
  if ratLtPow10 q ((digCount q.num.natAbs : Int) - (digCount q.den : Int)) then
    (digCount q.num.natAbs : Int) - (digCount q.den : Int) - 1
  else
    (digCount q.num.natAbs : Int) - (digCount q.den : Int)

/-- Round the fraction `n / d` (with `d > 0`) to the nearest integer,
ties to even (IEEE-754 / CPython rounding used when formatting
floats). -/
def roundHalfEvenInt (n d : Int) : Int :=
  if 2 * (n - d * Int.fdiv n d) < d then Int.fdiv n d
  else if d < 2 * (n - d * Int.fdiv n d) then Int.fdiv n d + 1
  else if Int.fdiv n d % 2 = 0 then Int.fdiv n d else Int.fdiv n d + 1

/-- Numerator of `q` shifted by `10 ^ s` (the scaling that brings the
mantissa of `q` to five integer digits). -/
def mantScaledNum (q : ℚ) (s : Int) : Int :=
  if 0 ≤ s then q.num * 10 ^ s.toNat else q.num

/-- Denominator of `q` shifted by `10 ^ (-s)` when `s` is negative. -/
def mantScaledDen (q : ℚ) (s : Int) : Int :=
  if 0 ≤ s then (q.den : Int) else (q.den : Int) * 10 ^ (-s).toNat

/-- The five-digit rounded mantissa of a positive rational: its value
scaled into `[10^4, 10^5]` and rounded half-to-even. -/
def mantRounded (a : ℚ) : Int :=
  roundHalfEvenInt (mantScaledNum a (4 - decExp a)) (mantScaledDen a (4 - decExp a))

/-- Scientific-notation characters of a nonnegative rational at
precision 4: model of CPython's `'{:.4E}'.format` on `|x|`. -/
def formatAbsE4 (a : ℚ) : List Char :=
  if a = 0 then mantissaChars 0 ++ expChars 0
  else if mantRounded a = 100000 then
    mantissaChars 10000 ++ expChars (decExp a + 1)
  else
    mantissaChars (mantRounded a).toNat ++ expChars (decExp a)

/-- Characters of CPython's `'{:.4E}'.format (x)` with `x` modelled
as an exact rational. -/
def formatE4 (q : ℚ) : List Char :=
  if q < 0 then '-' :: formatAbsE4 (-q) else formatAbsE4 q

/-- String form of `'{:.4E}'.format (x)`. -/
def pyFormatE4 (q : ℚ) : String :=
  String.mk (formatE4 q)

/-- The digits of the mantissa of a scientific-notation string
(the digit characters before the `E`); their count is the number of
significant digits displayed. -/
def sciMantissaDigits (s : List Char) : List Char :=
  (s.takeWhile (fun c => c ≠ 'E')).filter (fun c => c.isDigit)

/-- The fractional digits of a scientific-notation string (the
characters strictly between the decimal point and the `E`). -/
def sciFracDigits (s : List Char) : List Char :=
  ((s.dropWhile (fun c => c ≠ '.')).drop 1).takeWhile (fun c => c ≠ 'E')

/-! ## POSIX path operations: models of `os.path` as used by the script -/

/-- Index of the last occurrence of `c` in `l` (CPython `str.rfind`,
with `none` for "not found" in place of `-1`). -/
def rfindPos (c : Char) (l : List Char) : Option Nat :=
  match l.reverse.findIdx? (fun x => x = c) with
  | none => none
  | some j => some (l.length - 1 - j)

/-- Model of `p.rfind('/')` as CPython returns it: the index, or `-1`. -/
def extSepIdx (p : List Char) : Int :=
  match rfindPos '/' p with
  | none => -1
  | some i => (i : Int)

/-- Model of `p.rfind('.')` as CPython returns it: the index, or `-1`. -/
def extDotIdx (p : List Char) : Int :=
  match rfindPos '.' p with
  | none => -1
  | some i => (i : Int)

/-- Whether every character of the final path component before the
last dot is itself a dot (the skip-leading-dots loop of
`posixpath.splitext`). -/
def leadingDotsOnly (p : List Char) : Bool :=
  ((p.drop (extSepIdx p + 1).toNat).take
    ((extDotIdx p).toNat - (extSepIdx p + 1).toNat)).all (fun c => c = '.')

/-- Model of `posixpath.splitext`: split off the extension at the last
dot of the final path component, unless every character of the final
component before that dot is itself a dot (leading dots do not start
an extension). -/
def splitextChars (p : List Char) : List Char × List Char :=
  if extSepIdx p < extDotIdx p then
    if leadingDotsOnly p then (p, [])
    else (p.take (extDotIdx p).toNat, p.drop (extDotIdx p).toNat)
  else (p, [])

/-- Model of `posixpath.split`: break a path at the last slash; the
head keeps no trailing slashes unless it consists only of slashes. -/
def splitChars (p : List Char) : List Char × List Char :=
  let i : Nat := match rfindPos '/' p with | none => 0 | some j => j + 1
  let head := p.take i
  let tail := p.drop i
  let head2 :=
    if head ≠ [] ∧ ¬ head.all (fun c => c = '/') then
      (head.reverse.dropWhile (fun c => c = '/')).reverse
    else head
  (head2, tail)

/-- Model of two-argument `posixpath.join`. -/
def joinChars (a b : List Char) : List Char :=
  if b.head? = some '/' then b
  else if a = [] ∨ a.getLast? = some '/' then a ++ b
  else a ++ '/' :: b

/-- Split a character list at slashes into components (the components
produced by `path.split(sep)`). -/
def splitComps : List Char → List (List Char)
  | [] => [[]]
  | c :: rest =>
    let r := splitComps rest
    if c = '/' then [] :: r
    else (c :: r.headD []) :: r.tail

/-- The component normalization loop of `posixpath.normpath`:
drop empty and `.` components, and let `..` cancel a preceding
component (except at an absolute root, and except after an
uncancelled `..` in a relative path). -/
def normAccum (isAbs : Bool) (acc : List (List Char)) : List (List Char) → List (List Char)
  | [] => acc.reverse
  | comp :: rest =>
    if comp = [] ∨ comp = ['.'] then normAccum isAbs acc rest
    else if comp = ['.', '.'] then
      match acc with
      | [] => if isAbs then normAccum isAbs [] rest else normAccum isAbs [comp] rest
      | prev :: accTail =>
        if prev = ['.', '.'] then normAccum isAbs (comp :: acc) rest
        else normAccum isAbs accTail rest
    else normAccum isAbs (comp :: acc) rest

/-- Model of `posixpath.normpath`. -/
def normpathChars (p : List Char) : List Char :=
  if p = [] then ['.']
  else
    let isAbs : Bool := p.head? = some '/'
    let slashes : Nat :=
      if isAbs then
        if p.take 2 = ['/', '/'] ∧ p.take 3 ≠ ['/', '/', '/'] then 2 else 1
      else 0
    let comps := normAccum isAbs [] ((splitComps p).filter (fun c => c ≠ []))
    let res := List.replicate slashes '/' ++ List.intercalate ['/'] comps
    if res = [] then ['.'] else res

/-- Model of `posixpath.abspath`, with the process working directory
passed explicitly. -/
def abspathChars (cwd p : List Char) : List Char :=
  if p.head? = some '/' then normpathChars p
  else normpathChars (joinChars cwd p)

/-- Length of the longest common prefix of two component lists
(`posixpath.commonprefix` on split paths). -/
def commonLen : List (List Char) → List (List Char) → Nat
  | a :: as, b :: bs => if a = b then commonLen as bs + 1 else 0
  | _, _ => 0

/-- Model of `posixpath.relpath`, with the process working directory
passed explicitly: make both paths absolute, drop the common leading
components, and climb with `..` for each remaining component of
`start`. -/
def relpathChars (cwd path start : List Char) : List Char :=
  let pathList := (splitComps (abspathChars cwd path)).filter (fun c => c ≠ [])
  let startList := (splitComps (abspathChars cwd start)).filter (fun c => c ≠ [])
  let i := commonLen pathList startList
  let relList :=
    List.replicate (startList.length - i) ['.', '.'] ++ pathList.drop i
  match relList with
  | [] => ['.']
  | x :: xs => xs.foldl (fun acc comp => joinChars acc comp) x

/-! String-level wrappers for the path operations. -/

/-- Wrapper for `os.path.split` on strings. -/
def osPathSplit (p : String) : String × String :=
  (String.mk (splitChars p.data).1, String.mk (splitChars p.data).2)

/-- Wrapper for `os.path.splitext` on strings. -/
def osPathSplitext (p : String) : String × String :=
  (String.mk (splitextChars p.data).1, String.mk (splitextChars p.data).2)

/-- Wrapper for `os.path.join` on strings (two arguments). -/
def osPathJoin (a b : String) : String :=
  String.mk (joinChars a.data b.data)

/-- Wrapper for `os.path.abspath` on strings, working directory explicit. -/
def osPathAbspath (cwd p : String) : String :=
  String.mk (abspathChars cwd.data p.data)

/-- Wrapper for `os.path.relpath` on strings, working directory explicit. -/
def osPathRelpath (cwd path start : String) : String :=
  String.mk (relpathChars cwd.data path.data start.data)

/-- Model of `'%03d' % k` for a natural number. -/
def fmt03d (k : Nat) : String :=
  String.mk (padZeros 3 (natDigits k))

/-- Model of `'%04d' % k` for a natural number. -/
def fmt04d (k : Nat) : String :=
  String.mk (padZeros 4 (natDigits k))

/-! ## XML element trees: model of the `lxml.etree` trees the script builds -/

/-- An XML element: tag, attributes in order, text content, and child
elements in document order ("" models absent text). -/
inductive XElem : Type where
  | mk (tag : String) (attrs : List (String × String)) (text : String)
       (children : List XElem)

/-- The element's tag. -/
def XElem.tag : XElem → String
  | .mk t _ _ _ => t

/-- The element's attribute list. -/
def XElem.attrs : XElem → List (String × String)
  | .mk _ a _ _ => a

/-- The element's text content. -/
def XElem.text : XElem → String
  | .mk _ _ t _ => t

/-- The element's children. -/
def XElem.children : XElem → List XElem
  | .mk _ _ _ c => c

mutual

/-- Number of elements with tag `t` in the tree rooted at an element. -/
def XElem.countTag (t : String) : XElem → Nat
  | .mk tag _ _ children =>
    (if tag = t then 1 else 0) + XElem.countTagList t children

/-- Number of elements with tag `t` across a forest. -/
def XElem.countTagList (t : String) : List XElem → Nat
  | [] => 0
  | x :: xs => XElem.countTag t x + XElem.countTagList t xs

end

mutual

/-- Serialization of an element at a given indentation depth
(model of `lxml` `ElementTree.write` with `pretty_print=True`:
two-space indentation, self-closing empty elements). -/
def XElem.serialize (depth : Nat) : XElem → String
  | .mk tag attrs text children =>
    let pad := String.mk (List.replicate (2 * depth) ' ')
    let attrStr := String.join (attrs.map (fun a => " " ++ a.1 ++ "=\"" ++ a.2 ++ "\""))
    if text = "" ∧ children.isEmpty then
      pad ++ "<" ++ tag ++ attrStr ++ "/>\n"
    else if children.isEmpty then
      pad ++ "<" ++ tag ++ attrStr ++ ">" ++ text ++ "</" ++ tag ++ ">\n"
    else
      pad ++ "<" ++ tag ++ attrStr ++ ">\n" ++
        XElem.serializeList (depth + 1) children ++ pad ++ "</" ++ tag ++ ">\n"

/-- Serialization of a forest of sibling elements. -/
def XElem.serializeList (depth : Nat) : List XElem → String
  | [] => ""
  | x :: xs => XElem.serialize depth x ++ XElem.serializeList depth xs

end

/-- A placeholder element, used only as the default of positional
lookups that are in fact always in range. -/
def xdummy : XElem :=
  .mk "" [] "" []

/-! ## Meshes and the external mesh-processing library -/

/-- A triangle mesh: vertex positions (exact rationals standing for
machine floats) and triangle vertex-index triples. -/
structure Mesh : Type where
  vertices : List (ℚ × ℚ × ℚ)
  faces : List (Nat × Nat × Nat)
deriving DecidableEq

/-- Model of `trimesh.Trimesh.apply_scale` with a scalar factor: uniform
scaling of every vertex position. -/
def applyScale (s : ℚ) (m : Mesh) : Mesh :=
  { m with vertices := m.vertices.map (fun v => (s * v.1, s * v.2.1, s * v.2.2)) }

/-- Result of `trimesh.decomposition.convex_decomposition`: the
library may return a single mesh or a list of meshes. -/
inductive DecompRet : Type where
  | single (m : Mesh)
  | multiple (ms : List Mesh)

/-- The VHACD keyword arguments the script passes through to the
decomposition routine. -/
structure VhacdArgs : Type where
  resolution : Nat
  maxhulls : Nat
  minVolumePerCH : ℚ
  maxNumVerticesPerCH : Nat
  pca : Nat
deriving DecidableEq

/-- The behavior of the external mesh library (trimesh), supplied as
an oracle: loading, mass and inertia at a given density, and convex
decomposition, which may raise (`Except.error`). -/
structure TrimeshLib : Type where
  load : String → Mesh
  massOf : Mesh → ℚ → ℚ
  momentInertia : Mesh → ℚ → Nat → Nat → ℚ
  convexDecomposition : Mesh → VhacdArgs → Except String DecompRet

/-! ## The converter's functions -/

/-- Model of `calc_mesh_inertia`: set the mesh density, then read the
library's mass and moment-of-inertia tensor. -/
def calcMeshInertia (lib : TrimeshLib) (mesh : Mesh) (density : ℚ) :
    ℚ × (Nat → Nat → ℚ) :=
  (lib.massOf mesh density, lib.momentInertia mesh density)

/-- The convex piece list `do_collision_mesh_simplification` ends up
holding: the decomposition result, a single mesh wrapped into a
one-element list, or the empty list when the library call raised
(the exception is caught and logged). -/
def collisionPieces (lib : TrimeshLib) (mesh : Mesh) (args : VhacdArgs) : List Mesh :=
  match lib.convexDecomposition mesh args with
  | Except.ok (DecompRet.single m) => [m]
  | Except.ok (DecompRet.multiple ms) => ms
  | Except.error _ => []

/-- Model of `do_collision_mesh_simplification`: write each convex piece `k`
to `<mesh_name>_parts/<mesh_name>_convex_piece_%03d.obj` under the
mesh directory and return the list of written piece paths. -/
def doCollisionMeshSimplification (lib : TrimeshLib) (mesh : Mesh)
    (meshName meshDir : String) (args : VhacdArgs) : List String :=
  let meshPartsFolder := meshName ++ "_parts"
  let outDir := osPathJoin meshDir meshPartsFolder
  (collisionPieces lib mesh args).enum.map (fun kp =>
    osPathJoin outDir (meshName ++ "_convex_piece_" ++ fmt03d kp.1 ++ ".obj"))

/-- The output path of `do_visual_mesh_simplification`: the input
path with `_simple_vis` inserted between base name and extension. -/
def visualSimplifiedPath (inputMeshPath : String) : String :=
  (osPathSplitext inputMeshPath).1 ++ "_simple_vis" ++ (osPathSplitext inputMeshPath).2

/-! ## The visual simplification step, with an explicit file system -/

/-- A file system: an association list from paths to file contents,
most recent write first. -/
def FS : Type := List (String × String)

/-- Contents of the file at `p`, if any. -/
def fsRead (fs : FS) (p : String) : Option String :=
  (fs.find? (fun e => e.1 = p)).map (fun e => e.2)

/-- Write contents `c` at path `p` (shadowing any previous file). -/
def fsWrite (fs : FS) (p c : String) : FS :=
  (p, c) :: fs

/-- Model of `do_visual_mesh_simplification`: read the input mesh, decimate it
(the open3d pipeline is the oracle `simplify`, a function of the input
file's contents and the target triangle count), write the result to
the `_simple_vis` sibling path, and return that path. -/
def doVisualMeshSimplification (simplify : Option String → Nat → String)
    (fs : FS) (inputMeshPath : String) (targetTris : Nat) : FS × String :=
  let outputMeshPath := visualSimplifiedPath inputMeshPath
  (fsWrite fs outputMeshPath (simplify (fsRead fs inputMeshPath) targetTris),
   outputMeshPath)

/-! ## Descriptor assembly: `create_sdf_with_convex_decomp` -/

/-- The fixed `<pose>` element. -/
def poseItem : XElem :=
  .mk "pose" [] "0 0 0 0 0 0" []

/-- Name of axis `i` (`"xyz"[i]`). -/
def axisName (i : Nat) : String :=
  String.mk [(['x', 'y', 'z']).getD i ' ']

/-- The `<inertia>` children written by the double loop
`for i in range(3): for j in range(i, 3)`. -/
def inertiaChildren (I : Nat → Nat → ℚ) : List XElem :=
  ((List.range 3).map (fun i =>
    (List.range' i (3 - i)).map (fun j =>
      XElem.mk ("i" ++ axisName i ++ axisName j) [] (pyFormatE4 (I i j)) []))).flatten

/-- The `<inertial>` element: mass then inertia tensor. -/
def inertialItem (mass : ℚ) (I : Nat → Nat → ℚ) : XElem :=
  .mk "inertial" [] ""
    [.mk "mass" [] (pyFormatE4 mass) [],
     .mk "inertia" [] "" (inertiaChildren I)]

/-- The `<visual>` element: the visual mesh uri and the uniform
scale vector, each component formatted with `{:.4E}`. -/
def visualItem (uri : String) (scale : ℚ) : XElem :=
  .mk "visual" [("name", "visual")] ""
    [.mk "geometry" [] ""
      [.mk "mesh" [] ""
        [.mk "uri" [] uri [],
         .mk "scale" []
           (pyFormatE4 scale ++ " " ++ pyFormatE4 scale ++ " " ++ pyFormatE4 scale)
           []]]]

/-- One `<collision>` element for piece `k` at `path`: the piece path
relative to the descriptor's directory, plus the drake convexity
annotation tag. -/
def collisionItem (cwd dirPath : String) (kp : Nat × String) : XElem :=
  .mk "collision" [("name", "collision_" ++ fmt04d kp.1)] ""
    [.mk "geometry" [] ""
      [.mk "mesh" [] ""
        [.mk "uri" [] (osPathRelpath cwd kp.2 dirPath) [],
         .mk "\x7bdrake.mit.edu\x7ddeclare_convex" [] "" []]]]

/-- The result of one `create_sdf_with_convex_decomp` run: where the
descriptor goes, the XML document, the collision piece paths returned
by `do_collision_mesh_simplification`, and every file written, in
order. -/
structure SdfGenResult : Type where
  sdfPath : String
  doc : XElem
  collisionPaths : List String
  writtenFiles : List String

/-- Model of `create_sdf_with_convex_decomp`: load and prescale the mesh,
compute inertia, build the descriptor tree (pose, inertial, visual,
one collision element per decomposition piece), and write it next to
the input mesh as `<mesh name>.sdf`. -/
def createSdfWithConvexDecomp (lib : TrimeshLib) (cwd : String)
    (inputMeshPath : String) (scale : ℚ) (doVisualSimplification : Bool)
    (density : ℚ) (args : VhacdArgs) : SdfGenResult :=
  let dirPath := (osPathSplit inputMeshPath).1
  let meshFilename := (osPathSplit inputMeshPath).2
  let meshMinusExt := (osPathSplitext meshFilename).1
  let sdfPath := osPathJoin dirPath (meshMinusExt ++ ".sdf")
  let mesh := applyScale scale (lib.load inputMeshPath)
  let robotName := meshMinusExt
  let linkName := robotName ++ "_body_link"
  let mi := calcMeshInertia lib mesh density
  let visualMeshFilename :=
    if doVisualSimplification then visualSimplifiedPath inputMeshPath
    else inputMeshPath
  let visualRel := osPathRelpath cwd visualMeshFilename dirPath
  let collisionPaths := doCollisionMeshSimplification lib mesh meshMinusExt dirPath args
  let linkChildren :=
    [poseItem, inertialItem mi.1 mi.2, visualItem visualRel scale] ++
      collisionPaths.enum.map (collisionItem cwd dirPath)
  let linkItem := XElem.mk "link" [("name", linkName)] "" linkChildren
  let modelItem := XElem.mk "model" [("name", robotName)] "" [linkItem]
  let rootItem :=
    XElem.mk "sdf" [("version", "1.5"), ("xmlns:drake", "drake.mit.edu")] ""
      [modelItem]
  { sdfPath := sdfPath
    doc := rootItem
    collisionPaths := collisionPaths
    writtenFiles :=
      (if doVisualSimplification then [visualSimplifiedPath inputMeshPath] else []) ++
        collisionPaths ++ [sdfPath] }

/-! ## The command-line entry point -/

/-- The converter's command-line arguments. -/
structure CliArgs : Type where
  meshFile : String
  preview : Bool
  scale : ℚ
  density : ℚ
  doVisualSimplification : Bool
  targetTris : Nat
  resolution : Nat
  maxhulls : Nat
  minVolumePerCH : ℚ
  maxNumVerticesPerCH : Nat
deriving DecidableEq

/-- Observable outcome of one converter process run. -/
structure MainResult : Type where
  exitCode : Int
  writtenFiles : List String
  enteredCreateSdf : Bool
deriving DecidableEq

/-- The `__main__` block: make the mesh path absolute; if no file
exists there, log and `sys.exit(-1)` without writing anything;
otherwise run `create_sdf_with_convex_decomp` (with `pca=1` forced)
and exit normally. -/
def mainRun (lib : TrimeshLib) (cwd : String) (fileExists : String → Bool)
    (args : CliArgs) : MainResult :=
  let meshPath := osPathAbspath cwd args.meshFile
  if fileExists meshPath then
    let r := createSdfWithConvexDecomp lib cwd meshPath args.scale
      args.doVisualSimplification args.density
      ⟨args.resolution, args.maxhulls, args.minVolumePerCH,
       args.maxNumVerticesPerCH, 1⟩
    { exitCode := 0, writtenFiles := r.writtenFiles, enteredCreateSdf := true }
  else
    { exitCode := -1, writtenFiles := [], enteredCreateSdf := false }

/-! ## Observers on the generated document -/

/-- The `<model>` element of a run's document. -/
def modelOf (r : SdfGenResult) : XElem :=
  r.doc.children.getD 0 xdummy

/-- The `<link>` element of a run's document. -/
def linkOf (r : SdfGenResult) : XElem :=
  (modelOf r).children.getD 0 xdummy

/-- The `<collision>` elements of a run's document, in order (the
link children after pose, inertial and visual). -/
def collisionElemsOf (r : SdfGenResult) : List XElem :=
  (linkOf r).children.drop 3

/-- The `<inertial>` element of a run's document. -/
def inertialOf (r : SdfGenResult) : XElem :=
  (linkOf r).children.getD 1 xdummy

/-- The text of the `<mass>` element of a run's document. -/
def massTextOf (r : SdfGenResult) : String :=
  ((inertialOf r).children.getD 0 xdummy).text

/-- The `<inertia>` element of a run's document. -/
def inertiaElemOf (r : SdfGenResult) : XElem :=
  (inertialOf r).children.getD 1 xdummy

/-- The text of the `<scale>` element of a run's document. -/
def scaleTextOf (r : SdfGenResult) : String :=
  (((((linkOf r).children.getD 2 xdummy).children.getD 0 xdummy).children.getD 0
    xdummy).children.getD 1 xdummy).text

/-- The `<uri>` text under a collision (or visual) element:
collision → geometry → mesh → uri. -/
def uriTextOf (el : XElem) : String :=
  (((el.children.getD 0 xdummy).children.getD 0 xdummy).children.getD 0
    xdummy).text

/-! ## Demo inputs, used to instantiate theorems with hypotheses -/

/-- A small concrete mesh. -/
def demoMesh : Mesh := ⟨[(1, 2, 3)], [(0, 1, 2)]⟩

/-- Concrete VHACD parameters (the CLI defaults). -/
def demoArgs : VhacdArgs := ⟨100000, 12, 1 / 1000, 12, 1⟩

/-- The mass `1.2345` as a normalized rational literal. -/
def demoMass : ℚ := ⟨2469, 2000, by norm_num, by norm_num⟩

/-- A library whose decomposition returns a two-piece list. -/
def demoLibMulti : TrimeshLib :=
  { load := fun _ => demoMesh
    massOf := fun _ _ => demoMass
    momentInertia := fun _ _ i j => ((i : ℚ) + 1) * ((j : ℚ) + 1)
    convexDecomposition := fun _ _ =>
      Except.ok (DecompRet.multiple [demoMesh, demoMesh]) }

/-- A library whose decomposition returns a single mesh object
(not a list). -/
def demoLibSingle : TrimeshLib :=
  { demoLibMulti with
    convexDecomposition := fun _ _ => Except.ok (DecompRet.single demoMesh) }

/-- A library whose decomposition raises. -/
def demoLibFail : TrimeshLib :=
  { demoLibMulti with
    convexDecomposition := fun _ _ => Except.error "boom" }

/-- Concrete CLI arguments (the parser defaults, mesh `chair.obj`). -/
def demoCliArgs : CliArgs :=
  ⟨"chair.obj", false, 1, 2000, false, 1000, 100000, 12, 1 / 1000, 12⟩

/-- A concrete file system holding one mesh file. -/
def demoFS : FS := [("/models/chair.obj", "obj-data")]

/-- A concrete decimation oracle. -/
def demoSimplify : Option String → Nat → String := fun _ _ => "decimated"

/-! ## Helper lemmas -/

/-- Digit characters are decimal digits. -/
theorem digitOfNat_isDigit (n : Nat) : (digitOfNat n).isDigit = true := by
  unfold digitOfNat
  have h : n % 10 < 10 := Nat.mod_lt n (by decide)
  set k := n % 10 with hk
  interval_cases k <;> decide

/-- Digit characters are not the decimal point. -/
theorem digitOfNat_ne_dot (n : Nat) : digitOfNat n ≠ '.' := by
  unfold digitOfNat
  have h : n % 10 < 10 := Nat.mod_lt n (by decide)
  set k := n % 10 with hk
  interval_cases k <;> decide

/-- Digit characters are not the exponent marker. -/
theorem digitOfNat_ne_expMarker (n : Nat) : digitOfNat n ≠ 'E' := by
  unfold digitOfNat
  have h : n % 10 < 10 := Nat.mod_lt n (by decide)
  set k := n % 10 with hk
  interval_cases k <;> decide

/-- Fractional digits of a precision-4 mantissa-plus-exponent string:
exactly the four digit characters after the decimal point. -/
theorem sciFracDigits_mant_exp (n : Nat) (e : Int) :
    sciFracDigits (mantissaChars n ++ expChars e) =
      [digitOfNat (n / 1000), digitOfNat (n / 100), digitOfNat (n / 10),
       digitOfNat n] := by
  simp [sciFracDigits, mantissaChars, expChars, digitOfNat_ne_dot,
    digitOfNat_ne_expMarker]

/-- Mantissa digits of a precision-4 mantissa-plus-exponent string:
exactly the five digit characters before the exponent marker. -/
theorem sciMantissaDigits_mant_exp (n : Nat) (e : Int) :
    sciMantissaDigits (mantissaChars n ++ expChars e) =
      [digitOfNat (n / 10000), digitOfNat (n / 1000), digitOfNat (n / 100),
       digitOfNat (n / 10), digitOfNat n] := by
  simp [sciMantissaDigits, mantissaChars, expChars, digitOfNat_ne_expMarker,
    digitOfNat_isDigit, show ('.').isDigit = false from rfl]

/-- The function `formatAbsE4` always yields a five-digit mantissa followed by an
exponent field. -/
theorem formatAbsE4_shape (a : ℚ) :
    ∃ n e, formatAbsE4 a = mantissaChars n ++ expChars e := by
  unfold formatAbsE4
  split_ifs <;> exact ⟨_, _, rfl⟩

/-- The function `formatE4` always yields an optional minus sign, a five-digit
mantissa, and an exponent field. -/
theorem formatE4_shape (q : ℚ) :
    ∃ s n e, (s = [] ∨ s = ['-']) ∧
      formatE4 q = s ++ (mantissaChars n ++ expChars e) := by
  unfold formatE4
  split_ifs
  · obtain ⟨n, e, h⟩ := formatAbsE4_shape (-q)
    exact ⟨['-'], n, e, Or.inr rfl, by simp [h]⟩
  · obtain ⟨n, e, h⟩ := formatAbsE4_shape q
    exact ⟨[], n, e, Or.inl rfl, by simp [h]⟩

/-- Every `formatE4` output has exactly four fractional digits, all
decimal digits. -/
theorem sciFracDigits_formatE4 (q : ℚ) :
    (sciFracDigits (formatE4 q)).length = 4 ∧
      ∀ c ∈ sciFracDigits (formatE4 q), c.isDigit = true := by
  obtain ⟨s, n, e, hs, h⟩ := formatE4_shape q
  have hdrop : sciFracDigits (formatE4 q) =
      sciFracDigits (mantissaChars n ++ expChars e) := by
    rcases hs with hs | hs <;> subst hs <;>
      simp [h, sciFracDigits, mantissaChars, digitOfNat_ne_dot]
  rw [hdrop, sciFracDigits_mant_exp]
  refine ⟨rfl, ?_⟩
  intro c hc
  simp only [List.mem_cons, List.not_mem_nil, or_false] at hc
  rcases hc with rfl | rfl | rfl | rfl <;> exact digitOfNat_isDigit _

/-- Every `formatE4` output displays exactly five significant
(mantissa) digits. -/
theorem sciMantissaDigits_formatE4 (q : ℚ) :
    (sciMantissaDigits (formatE4 q)).length = 5 := by
  obtain ⟨s, n, e, hs, h⟩ := formatE4_shape q
  have hdrop : sciMantissaDigits (formatE4 q) =
      sciMantissaDigits (mantissaChars n ++ expChars e) := by
    rcases hs with hs | hs <;> subst hs <;>
      simp [h, sciMantissaDigits, mantissaChars, expChars,
        digitOfNat_ne_expMarker, digitOfNat_isDigit,
        show ('.').isDigit = false from rfl,
        show ('-').isDigit = false from rfl]
  rw [hdrop, sciMantissaDigits_mant_exp]
  rfl

/-- Unfolding equation for `XElem.countTag`. -/
theorem countTag_mk (t tag : String) (attrs : List (String × String))
    (text : String) (children : List XElem) :
    XElem.countTag t (.mk tag attrs text children) =
      (if tag = t then 1 else 0) + XElem.countTagList t children := rfl

/-- Unfolding of `XElem.countTagList` on the empty forest. -/
theorem countTagList_nil (t : String) : XElem.countTagList t [] = 0 := rfl

/-- Unfolding of `XElem.countTagList` on a cons. -/
theorem countTagList_cons (t : String) (x : XElem) (xs : List XElem) :
    XElem.countTagList t (x :: xs) =
      XElem.countTag t x + XElem.countTagList t xs := rfl

/-- Additivity of `XElem.countTagList` over append. -/
theorem countTagList_append (t : String) (xs ys : List XElem) :
    XElem.countTagList t (xs ++ ys) =
      XElem.countTagList t xs + XElem.countTagList t ys := by
  induction xs with
  | nil => simp [countTagList_nil]
  | cons x xs ih => simp [countTagList_cons, ih, Nat.add_assoc]

/-- A collision element contributes exactly one `collision` tag. -/
theorem countTag_collisionItem (cwd dirPath : String) (kp : Nat × String) :
    XElem.countTag "collision" (collisionItem cwd dirPath kp) = 1 := rfl

/-- The pose element contains no `collision` tag. -/
theorem countTag_poseItem : XElem.countTag "collision" poseItem = 0 := rfl

/-- The inertial element contains no `collision` tag. -/
theorem countTag_inertialItem (mass : ℚ) (I : Nat → Nat → ℚ) :
    XElem.countTag "collision" (inertialItem mass I) = 0 := rfl

/-- The visual element contains no `collision` tag. -/
theorem countTag_visualItem (uri : String) (scale : ℚ) :
    XElem.countTag "collision" (visualItem uri scale) = 0 := rfl

/-- A mapped list of collision elements contributes one `collision`
tag per entry. -/
theorem countTagList_map_collisionItem (cwd dirPath : String)
    (ps : List (Nat × String)) :
    XElem.countTagList "collision" (ps.map (collisionItem cwd dirPath)) =
      ps.length := by
  induction ps with
  | nil => rfl
  | cons p ps ih =>
    simp [countTagList_cons, countTag_collisionItem, ih]
    omega

/-- In any run's document, the `collision` tag count equals the
length of the piece path list (shared counting lemma). -/
theorem countTag_doc_eq_length (lib : TrimeshLib) (cwd inputMeshPath : String)
    (scale : ℚ) (dv : Bool) (density : ℚ) (args : VhacdArgs) :
    XElem.countTag "collision"
        (createSdfWithConvexDecomp lib cwd inputMeshPath scale dv density args).doc =
      (createSdfWithConvexDecomp lib cwd inputMeshPath scale dv density
        args).collisionPaths.length := by
  dsimp only [createSdfWithConvexDecomp]
  simp [countTag_mk, countTagList_cons, countTagList_nil, countTagList_append,
    countTag_poseItem, countTag_inertialItem, countTag_visualItem,
    countTagList_map_collisionItem, List.enum_length]

/-- In any run, the descriptor path is among the written files
(the descriptor is written unconditionally). -/
theorem sdfPath_mem_writtenFiles (lib : TrimeshLib) (cwd inputMeshPath : String)
    (scale : ℚ) (dv : Bool) (density : ℚ) (args : VhacdArgs) :
    (createSdfWithConvexDecomp lib cwd inputMeshPath scale dv density
        args).sdfPath ∈
      (createSdfWithConvexDecomp lib cwd inputMeshPath scale dv density
        args).writtenFiles := by
  dsimp only [createSdfWithConvexDecomp]
  simp

/-- The caught-exception branch: when the decomposition library call
raises, the piece list stays empty. -/
theorem collisionPieces_error (lib : TrimeshLib) (mesh : Mesh)
    (args : VhacdArgs) (msg : String)
    (h : lib.convexDecomposition mesh args = Except.error msg) :
    collisionPieces lib mesh args = [] := by
  simp [collisionPieces, h]

/-- The single-mesh branch: a lone mesh is wrapped into a one-element
list. -/
theorem collisionPieces_single (lib : TrimeshLib) (mesh m : Mesh)
    (args : VhacdArgs)
    (h : lib.convexDecomposition mesh args = Except.ok (DecompRet.single m)) :
    collisionPieces lib mesh args = [m] := by
  simp [collisionPieces, h]

/-- The piece path list has one path per convex piece. -/
theorem doCollision_length (lib : TrimeshLib) (mesh : Mesh)
    (meshName meshDir : String) (args : VhacdArgs) :
    (doCollisionMeshSimplification lib mesh meshName meshDir args).length =
      (collisionPieces lib mesh args).length := by
  simp [doCollisionMeshSimplification, List.enum_length]

/-- Recombination: `splitext` splits its input, base and extension concatenate back
to the original path. -/
theorem splitextChars_append (p : List Char) :
    (splitextChars p).1 ++ (splitextChars p).2 = p := by
  unfold splitextChars
  split_ifs <;> simp

/-- Packing lists with `String.mk` turns list append into string append. -/
theorem stringMk_append (a b : List Char) :
    String.mk a ++ String.mk b = String.mk (a ++ b) := rfl

/-- Recombination at string level: `os.path.splitext` base and extension
concatenate back to the original path. -/
theorem osPathSplitext_append (p : String) :
    (osPathSplitext p).1 ++ (osPathSplitext p).2 = p := by
  show String.mk (splitextChars p.data).1 ++ String.mk (splitextChars p.data).2 = p
  rw [stringMk_append, splitextChars_append]

/-- The `_simple_vis` output path is eleven characters longer than
its input path. -/
theorem visualSimplifiedPath_length (p : String) :
    (visualSimplifiedPath p).data.length = p.data.length + 11 := by
  have hrec : ((splitextChars p.data).1 ++ (splitextChars p.data).2).length
      = p.data.length := by rw [splitextChars_append]
  have hd : (visualSimplifiedPath p).data =
      ((splitextChars p.data).1 ++ "_simple_vis".data) ++
        (splitextChars p.data).2 := rfl
  rw [hd]
  simp only [List.length_append, List.length_cons, List.length_nil] at hrec ⊢
  omega

/-- The `_simple_vis` output path never equals the input path. -/
theorem visualSimplifiedPath_ne (p : String) : visualSimplifiedPath p ≠ p := by
  intro h
  have := congrArg (fun s => s.data.length) h
  simp only at this
  rw [visualSimplifiedPath_length p] at this
  omega

/-- Reading back a just-written file yields the written contents. -/
theorem fsRead_write_same (fs : FS) (p c : String) :
    fsRead (fsWrite fs p c) p = some c := by
  simp [fsRead, fsWrite]

/-- Writing one file leaves every other path's contents unchanged. -/
theorem fsRead_write_other (fs : FS) (p c q : String) (h : q ≠ p) :
    fsRead (fsWrite fs p c) q = fsRead fs q := by
  simp [fsRead, fsWrite, List.find?_cons, h.symm]

/-- Scaling by `1` is the identity on meshes. -/
theorem applyScale_one (m : Mesh) : applyScale 1 m = m := by
  cases m with
  | mk v f => simp [applyScale]

/-! ## Claims -/

/-- C1: for every run of the converter on a valid input mesh, the
number of `collision` elements in the written descriptor document
equals the length of the collision-piece path list returned by
`do_collision_mesh_simplification` (one collision element per
returned piece path, and no others). -/
theorem collisionElementCount_eq_pieceListLength (lib : TrimeshLib)
    (cwd inputMeshPath : String) (scale : ℚ) (dv : Bool) (density : ℚ)
    (args : VhacdArgs) :
    XElem.countTag "collision"
        (createSdfWithConvexDecomp lib cwd inputMeshPath scale dv density args).doc =
      (createSdfWithConvexDecomp lib cwd inputMeshPath scale dv density
        args).collisionPaths.length :=
  countTag_doc_eq_length lib cwd inputMeshPath scale dv density args

/-- C2: if the convex-decomposition library call raises, the error is
logged and an empty piece list results instead of the exception
propagating, and `create_sdf_with_convex_decomp` still writes the
descriptor file, containing zero `collision` elements. -/
theorem decompFailure_stillWritesDescriptor (lib : TrimeshLib)
    (cwd inputMeshPath : String) (scale : ℚ) (dv : Bool) (density : ℚ)
    (args : VhacdArgs) (msg : String)
    (h : lib.convexDecomposition (applyScale scale (lib.load inputMeshPath))
        args = Except.error msg) :
    (createSdfWithConvexDecomp lib cwd inputMeshPath scale dv density
        args).collisionPaths = [] ∧
    XElem.countTag "collision"
        (createSdfWithConvexDecomp lib cwd inputMeshPath scale dv density
          args).doc = 0 ∧
    (createSdfWithConvexDecomp lib cwd inputMeshPath scale dv density
        args).sdfPath ∈
      (createSdfWithConvexDecomp lib cwd inputMeshPath scale dv density
        args).writtenFiles := by
  have hp : (createSdfWithConvexDecomp lib cwd inputMeshPath scale dv density
      args).collisionPaths = [] := by
    dsimp only [createSdfWithConvexDecomp]
    simp [doCollisionMeshSimplification, collisionPieces_error _ _ _ _ h]
  refine ⟨hp, ?_, sdfPath_mem_writtenFiles lib cwd inputMeshPath scale dv density args⟩
  rw [countTag_doc_eq_length, hp]
  rfl

/-- C2 witness: a concrete failing decomposition still yields a
descriptor with zero collision elements. -/
theorem decompFailure_stillWritesDescriptor_witness :
    (createSdfWithConvexDecomp demoLibFail "/cwd" "/models/chair.obj" 1 false
        2000 demoArgs).collisionPaths = [] ∧
    XElem.countTag "collision"
        (createSdfWithConvexDecomp demoLibFail "/cwd" "/models/chair.obj" 1
          false 2000 demoArgs).doc = 0 ∧
    (createSdfWithConvexDecomp demoLibFail "/cwd" "/models/chair.obj" 1 false
        2000 demoArgs).sdfPath ∈
      (createSdfWithConvexDecomp demoLibFail "/cwd" "/models/chair.obj" 1 false
        2000 demoArgs).writtenFiles :=
  decompFailure_stillWritesDescriptor demoLibFail "/cwd" "/models/chair.obj" 1
    false 2000 demoArgs "boom" rfl

/-- C5: if the positional mesh path does not name an existing file,
the process logs an error and exits with a non-zero status before any
output file is written, never entering
`create_sdf_with_convex_decomp`. -/
theorem missingMesh_exitsNonzero_noWrites (lib : TrimeshLib) (cwd : String)
    (fileExists : String → Bool) (args : CliArgs)
    (h : fileExists (osPathAbspath cwd args.meshFile) = false) :
    (mainRun lib cwd fileExists args).exitCode ≠ 0 ∧
    (mainRun lib cwd fileExists args).writtenFiles = [] ∧
    (mainRun lib cwd fileExists args).enteredCreateSdf = false := by
  simp [mainRun, h]

/-- C5 witness: a concrete run with a missing mesh file. -/
theorem missingMesh_exitsNonzero_noWrites_witness :
    (mainRun demoLibMulti "/cwd" (fun _ => false) demoCliArgs).exitCode ≠ 0 ∧
    (mainRun demoLibMulti "/cwd" (fun _ => false) demoCliArgs).writtenFiles = [] ∧
    (mainRun demoLibMulti "/cwd" (fun _ => false) demoCliArgs).enteredCreateSdf
      = false :=
  missingMesh_exitsNonzero_noWrites demoLibMulti "/cwd" (fun _ => false)
    demoCliArgs rfl

/-- C10: if the convex-decomposition library call returns a single
mesh object rather than a list, it is wrapped into a one-element
list, so the converter produces exactly one collision piece file and
one `collision` element. -/
theorem singleMeshResult_onePiece (lib : TrimeshLib)
    (cwd inputMeshPath : String) (scale : ℚ) (dv : Bool) (density : ℚ)
    (args : VhacdArgs) (m : Mesh)
    (h : lib.convexDecomposition (applyScale scale (lib.load inputMeshPath))
        args = Except.ok (DecompRet.single m)) :
    (createSdfWithConvexDecomp lib cwd inputMeshPath scale dv density
        args).collisionPaths.length = 1 ∧
    XElem.countTag "collision"
        (createSdfWithConvexDecomp lib cwd inputMeshPath scale dv density
          args).doc = 1 := by
  have hp : (createSdfWithConvexDecomp lib cwd inputMeshPath scale dv density
      args).collisionPaths.length = 1 := by
    dsimp only [createSdfWithConvexDecomp]
    rw [doCollision_length, collisionPieces_single _ _ _ _ h]
    rfl
  refine ⟨hp, ?_⟩
  rw [countTag_doc_eq_length, hp]

/-- C10 witness: a concrete decomposition returning a single mesh
yields one piece path and one collision element. -/
theorem singleMeshResult_onePiece_witness :
    (createSdfWithConvexDecomp demoLibSingle "/cwd" "/models/chair.obj" 1 false
        2000 demoArgs).collisionPaths.length = 1 ∧
    XElem.countTag "collision"
        (createSdfWithConvexDecomp demoLibSingle "/cwd" "/models/chair.obj" 1
          false 2000 demoArgs).doc = 1 :=
  singleMeshResult_onePiece demoLibSingle "/cwd" "/models/chair.obj" 1 false
    2000 demoArgs demoMesh rfl

/-- Positional lookup in an enumerate-map list. -/
theorem getD_enum_map {α β : Type} (f : Nat × α → β) (l : List α) (k : Nat)
    (d : β) (da : α) (hk : k < l.length) :
    (l.enum.map f).getD k d = f (k, l.getD k da) := by
  rw [List.getD_eq_getElem _ _ (by simpa [List.enum_length] using hk),
    List.getElem_map, List.getElem_enum, List.getD_eq_getElem _ _ hk]

/-- The `k`-th piece path produced by
`do_collision_mesh_simplification`. -/
theorem doCollision_getD (lib : TrimeshLib) (mesh : Mesh)
    (meshName meshDir : String) (args : VhacdArgs) (k : Nat)
    (hk : k < (doCollisionMeshSimplification lib mesh meshName meshDir args).length) :
    (doCollisionMeshSimplification lib mesh meshName meshDir args).getD k "" =
      osPathJoin (osPathJoin meshDir (meshName ++ "_parts"))
        (meshName ++ "_convex_piece_" ++ fmt03d k ++ ".obj") := by
  have hk2 : k < (collisionPieces lib mesh args).length := by
    simpa [doCollisionMeshSimplification, List.enum_length] using hk
  unfold doCollisionMeshSimplification
  rw [getD_enum_map _ _ _ _ ⟨[], []⟩ hk2]

/-- C3 counterexample: the mass text of a concrete run displays five
significant mantissa digits, not four — the format is `{:.4E}`, four
digits after the decimal point on top of the leading digit. -/
theorem floatFormat_fourSigDigits_counterexample :
    massTextOf (createSdfWithConvexDecomp demoLibMulti "/cwd"
        "/models/chair.obj" 1 false 2000 demoArgs) = "1.2345E+00" ∧
    (sciMantissaDigits (massTextOf (createSdfWithConvexDecomp demoLibMulti
        "/cwd" "/models/chair.obj" 1 false 2000 demoArgs)).data).length ≠ 4 := by
  constructor
  · rfl
  · decide

/-- C3 amended: every floating-point value written into the
descriptor — the mass, each inertia tensor component, and each of the
three scale components — is formatted by the single fixed format
`{:.4E}`: scientific notation with exactly four digits after the
decimal point, hence five significant mantissa digits. -/
theorem floatTexts_sciFourFracDigits (lib : TrimeshLib) (cwd p : String)
    (scale : ℚ) (dv : Bool) (density : ℚ) (args : VhacdArgs) :
    massTextOf (createSdfWithConvexDecomp lib cwd p scale dv density args) =
      pyFormatE4 ((calcMeshInertia lib (applyScale scale (lib.load p))
        density).1) ∧
    (inertiaElemOf (createSdfWithConvexDecomp lib cwd p scale dv density
        args)).children.map XElem.text =
      [pyFormatE4 ((calcMeshInertia lib (applyScale scale (lib.load p)) density).2 0 0),
       pyFormatE4 ((calcMeshInertia lib (applyScale scale (lib.load p)) density).2 0 1),
       pyFormatE4 ((calcMeshInertia lib (applyScale scale (lib.load p)) density).2 0 2),
       pyFormatE4 ((calcMeshInertia lib (applyScale scale (lib.load p)) density).2 1 1),
       pyFormatE4 ((calcMeshInertia lib (applyScale scale (lib.load p)) density).2 1 2),
       pyFormatE4 ((calcMeshInertia lib (applyScale scale (lib.load p)) density).2 2 2)] ∧
    scaleTextOf (createSdfWithConvexDecomp lib cwd p scale dv density args) =
      pyFormatE4 scale ++ " " ++ pyFormatE4 scale ++ " " ++ pyFormatE4 scale ∧
    (∀ q : ℚ, (sciFracDigits (pyFormatE4 q).data).length = 4 ∧
      (∀ c ∈ sciFracDigits (pyFormatE4 q).data, c.isDigit = true) ∧
      (sciMantissaDigits (pyFormatE4 q).data).length = 5) := by
  refine ⟨rfl, rfl, rfl, fun q => ?_⟩
  exact ⟨(sciFracDigits_formatE4 q).1, (sciFracDigits_formatE4 q).2,
    sciMantissaDigits_formatE4 q⟩

/-- C4: the inertial block contains exactly the six independent
inertia tensor components `ixx, ixy, ixz, iyy, iyz, izz`, each
written exactly once from the computed tensor entry `I[i,j]` with
`i ≤ j`, so both positions of every off-diagonal pair derive from the
one computed value. -/
theorem inertialBlock_sixComponents (lib : TrimeshLib) (cwd p : String)
    (scale : ℚ) (dv : Bool) (density : ℚ) (args : VhacdArgs) :
    (inertiaElemOf (createSdfWithConvexDecomp lib cwd p scale dv density
        args)).children =
      [XElem.mk "ixx" []
        (pyFormatE4 ((calcMeshInertia lib (applyScale scale (lib.load p)) density).2 0 0)) [],
       XElem.mk "ixy" []
        (pyFormatE4 ((calcMeshInertia lib (applyScale scale (lib.load p)) density).2 0 1)) [],
       XElem.mk "ixz" []
        (pyFormatE4 ((calcMeshInertia lib (applyScale scale (lib.load p)) density).2 0 2)) [],
       XElem.mk "iyy" []
        (pyFormatE4 ((calcMeshInertia lib (applyScale scale (lib.load p)) density).2 1 1)) [],
       XElem.mk "iyz" []
        (pyFormatE4 ((calcMeshInertia lib (applyScale scale (lib.load p)) density).2 1 2)) [],
       XElem.mk "izz" []
        (pyFormatE4 ((calcMeshInertia lib (applyScale scale (lib.load p)) density).2 2 2)) []] := by
  rfl

/-- C6: the `k`-th decomposition piece is written to
`<mesh name>_parts/<mesh name>_convex_piece_<k zero-padded to 3
digits>.obj` inside the mesh's directory, and the `k`-th `collision`
element's uri text is that file's path made relative to the
descriptor's own directory. -/
theorem pieceFilePath_and_collisionUri (lib : TrimeshLib)
    (cwd inputMeshPath : String) (scale : ℚ) (dv : Bool) (density : ℚ)
    (args : VhacdArgs) (k : Nat)
    (hk : k < (createSdfWithConvexDecomp lib cwd inputMeshPath scale dv density
        args).collisionPaths.length) :
    (createSdfWithConvexDecomp lib cwd inputMeshPath scale dv density
        args).collisionPaths.getD k "" =
      osPathJoin
        (osPathJoin (osPathSplit inputMeshPath).1
          ((osPathSplitext (osPathSplit inputMeshPath).2).1 ++ "_parts"))
        ((osPathSplitext (osPathSplit inputMeshPath).2).1 ++
          "_convex_piece_" ++ fmt03d k ++ ".obj") ∧
    uriTextOf ((collisionElemsOf (createSdfWithConvexDecomp lib cwd
        inputMeshPath scale dv density args)).getD k xdummy) =
      osPathRelpath cwd
        ((createSdfWithConvexDecomp lib cwd inputMeshPath scale dv density
          args).collisionPaths.getD k "")
        (osPathSplit inputMeshPath).1 := by
  constructor
  · exact doCollision_getD lib _ _ _ args k hk
  · have hElems : collisionElemsOf (createSdfWithConvexDecomp lib cwd
        inputMeshPath scale dv density args) =
        (createSdfWithConvexDecomp lib cwd inputMeshPath scale dv density
          args).collisionPaths.enum.map
          (collisionItem cwd (osPathSplit inputMeshPath).1) := rfl
    rw [hElems, getD_enum_map _ _ _ _ "" hk]
    rfl

/-- C6 witness: the first piece of a concrete two-piece run. -/
theorem pieceFilePath_and_collisionUri_witness :
    (createSdfWithConvexDecomp demoLibMulti "/cwd" "/models/chair.obj" 1 false
        2000 demoArgs).collisionPaths.getD 0 "" =
      osPathJoin
        (osPathJoin (osPathSplit "/models/chair.obj").1
          ((osPathSplitext (osPathSplit "/models/chair.obj").2).1 ++ "_parts"))
        ((osPathSplitext (osPathSplit "/models/chair.obj").2).1 ++
          "_convex_piece_" ++ fmt03d 0 ++ ".obj") ∧
    uriTextOf ((collisionElemsOf (createSdfWithConvexDecomp demoLibMulti "/cwd"
        "/models/chair.obj" 1 false 2000 demoArgs)).getD 0 xdummy) =
      osPathRelpath "/cwd"
        ((createSdfWithConvexDecomp demoLibMulti "/cwd" "/models/chair.obj" 1
          false 2000 demoArgs).collisionPaths.getD 0 "")
        (osPathSplit "/models/chair.obj").1 :=
  pieceFilePath_and_collisionUri demoLibMulti "/cwd" "/models/chair.obj" 1
    false 2000 demoArgs 0 (by decide)

/-- C7: the descriptor content (and its path) is a deterministic
function of the input mesh, the parameters, and the library's
behavior: two runs with identical inputs serialize to byte-identical
descriptor files. -/
theorem descriptorBytes_deterministic (lib lib2 : TrimeshLib)
    (cwd cwd2 p p2 : String) (scale scale2 : ℚ) (dv dv2 : Bool)
    (density density2 : ℚ) (args args2 : VhacdArgs)
    (hlib : lib = lib2) (hcwd : cwd = cwd2) (hp : p = p2)
    (hs : scale = scale2) (hdv : dv = dv2) (hd : density = density2)
    (ha : args = args2) :
    XElem.serialize 0
        (createSdfWithConvexDecomp lib cwd p scale dv density args).doc =
      XElem.serialize 0
        (createSdfWithConvexDecomp lib2 cwd2 p2 scale2 dv2 density2 args2).doc ∧
    (createSdfWithConvexDecomp lib cwd p scale dv density args).sdfPath =
      (createSdfWithConvexDecomp lib2 cwd2 p2 scale2 dv2 density2
        args2).sdfPath := by
  subst hlib hcwd hp hs hdv hd ha
  exact ⟨rfl, rfl⟩

/-- C7 witness: a concrete pair of identical runs. -/
theorem descriptorBytes_deterministic_witness :
    XElem.serialize 0
        (createSdfWithConvexDecomp demoLibMulti "/cwd" "/models/chair.obj" 1
          false 2000 demoArgs).doc =
      XElem.serialize 0
        (createSdfWithConvexDecomp demoLibMulti "/cwd" "/models/chair.obj" 1
          false 2000 demoArgs).doc ∧
    (createSdfWithConvexDecomp demoLibMulti "/cwd" "/models/chair.obj" 1 false
        2000 demoArgs).sdfPath =
      (createSdfWithConvexDecomp demoLibMulti "/cwd" "/models/chair.obj" 1
        false 2000 demoArgs).sdfPath :=
  descriptorBytes_deterministic demoLibMulti demoLibMulti "/cwd" "/cwd"
    "/models/chair.obj" "/models/chair.obj" 1 1 false false 2000 2000 demoArgs
    demoArgs rfl rfl rfl rfl rfl rfl rfl

/-- C8: prescaling with factor `1.0` is an identity on the mass and
inertia outputs — the pipeline with scale `1.0` computes the same
mass and inertia tensor as the pipeline on the unscaled mesh. -/
theorem scaleOne_identity_massInertia (lib : TrimeshLib)
    (inputMeshPath : String) (density : ℚ) :
    calcMeshInertia lib (applyScale 1 (lib.load inputMeshPath)) density =
      calcMeshInertia lib (lib.load inputMeshPath) density := by
  rw [applyScale_one]

/-- C9: `do_visual_mesh_simplification` writes the simplified mesh to
the input path with `_simple_vis` inserted before the extension (same
directory, same extension), returns that path, and leaves the
original input mesh file — and every other file — unmodified. -/
theorem visualSimplification_newFile_originalUntouched
    (simplify : Option String → Nat → String) (fs : FS)
    (inputMeshPath : String) (targetTris : Nat) :
    (doVisualMeshSimplification simplify fs inputMeshPath targetTris).2 =
      (osPathSplitext inputMeshPath).1 ++ "_simple_vis" ++
        (osPathSplitext inputMeshPath).2 ∧
    (osPathSplitext inputMeshPath).1 ++ (osPathSplitext inputMeshPath).2 =
      inputMeshPath ∧
    fsRead (doVisualMeshSimplification simplify fs inputMeshPath targetTris).1
        (doVisualMeshSimplification simplify fs inputMeshPath targetTris).2 =
      some (simplify (fsRead fs inputMeshPath) targetTris) ∧
    fsRead (doVisualMeshSimplification simplify fs inputMeshPath targetTris).1
        inputMeshPath = fsRead fs inputMeshPath ∧
    ∀ q : String,
      q ≠ (doVisualMeshSimplification simplify fs inputMeshPath targetTris).2 →
        fsRead (doVisualMeshSimplification simplify fs inputMeshPath
          targetTris).1 q = fsRead fs q := by
  refine ⟨rfl, osPathSplitext_append inputMeshPath, ?_, ?_, ?_⟩
  · exact fsRead_write_same fs _ _
  · exact fsRead_write_other fs _ _ _ (visualSimplifiedPath_ne inputMeshPath).symm
  · intro q hq
    exact fsRead_write_other fs _ _ q hq

/-- C9 witness: a concrete run on `/models/chair.obj`. -/
theorem visualSimplification_newFile_originalUntouched_witness :
    (doVisualMeshSimplification demoSimplify demoFS "/models/chair.obj"
        1000).2 =
      (osPathSplitext "/models/chair.obj").1 ++ "_simple_vis" ++
        (osPathSplitext "/models/chair.obj").2 ∧
    (osPathSplitext "/models/chair.obj").1 ++
        (osPathSplitext "/models/chair.obj").2 = "/models/chair.obj" ∧
    fsRead (doVisualMeshSimplification demoSimplify demoFS "/models/chair.obj"
        1000).1
        (doVisualMeshSimplification demoSimplify demoFS "/models/chair.obj"
          1000).2 =
      some (demoSimplify (fsRead demoFS "/models/chair.obj") 1000) ∧
    fsRead (doVisualMeshSimplification demoSimplify demoFS "/models/chair.obj"
        1000).1 "/models/chair.obj" = fsRead demoFS "/models/chair.obj" ∧
    fsRead (doVisualMeshSimplification demoSimplify demoFS "/models/chair.obj"
        1000).1 "/models/sofa.obj" = fsRead demoFS "/models/sofa.obj" := by
  have h := visualSimplification_newFile_originalUntouched demoSimplify demoFS
    "/models/chair.obj" 1000
  exact ⟨h.1, h.2.1, h.2.2.1, h.2.2.2.1,
    h.2.2.2.2 "/models/sofa.obj" (by decide)⟩

end ConvexDecompToSdf
